import Mathlib

/-!
Verification of the audio-profile validation and conversion pipeline of
rpwavgen (src/rpwavgen.py), shallowly embedded in Lean.

Audio files are modelled at the property level: an AudioAsset records the
measured header properties that the Python code reads through the wave and
pydub libraries (duration in seconds, frame rate in Hz, sample width in
bytes, channel count, and the container compression tag).  Pure fractions
of the code (validate_wav, check_gain, convert_to_wav at the property
level, the path arithmetic of generate_wav) become Lean functions;
exception propagation in generate_wav becomes an explicit run outcome over
a small string-keyed file store.
-/

namespace Rpwavgen

/-- Measured properties of an audio file, as read by wave.open and
pydub.AudioSegment.from_file: duration_seconds, frame_rate (Hz),
sample_width (bytes), channels, and the compression tag comp_type
(the wave module reports NONE for uncompressed PCM). -/
structure AudioAsset where
  duration_seconds : ℚ
  frame_rate : ℕ
  sample_width : ℕ
  channels : ℕ
  comp_type : String
deriving DecidableEq, Repr

/-- The WAV_FORMAT profile dictionary (src lines 26-32): filename, container
format, max_length (seconds), sampling_rate (kHz figure), bit_rate (bit
figure), channel count, and modulation tag. -/
structure WavFormat where
  filename : String
  format : String
  max_length : ℚ
  sampling_rate : ℕ
  bit_rate : ℕ
  channel : ℕ
  modulation : String
deriving DecidableEq, Repr

/-- FILE_NAME constant (src line 25). -/
def FILE_NAME : String := "Speech.wav"

/-- WAV_FORMAT constant (src lines 26-32). -/
def WAV_FORMAT : WavFormat :=
  { filename := FILE_NAME
    format := "wav"
    max_length := 10
    sampling_rate := 16
    bit_rate := 16
    channel := 1
    modulation := "PCM" }

/-- validate_wav_mod (src lines 107-139): the file is classified PCM exactly
when the container compression type field reads NONE. -/
def validate_wav_mod (a : AudioAsset) : Bool :=
  a.comp_type = "NONE"

/-- The modulation string validate_wav derives from validate_wav_mod
(src lines 165-168). -/
def file_modulation (a : AudioAsset) : String :=
  if validate_wav_mod a then "PCM" else "Not PCM"

/-- validate_wav (src lines 142-188).  It derives bit_rate as the profile
bit_rate field times 1000 and sampling_rate as the profile sampling_rate
field divided by 8 (Python true division, hence a rational), then checks in
order: duration against max_length, frame rate against bit_rate, sample
width against sampling_rate, channel count, and modulation, returning False
at the first failing check and True otherwise. -/
def validate_wav (a : AudioAsset) (wav_format : WavFormat) : Bool :=
  let bit_rate := wav_format.bit_rate * 1000
  let sampling_rate : ℚ := (wav_format.sampling_rate : ℚ) / 8
  if a.duration_seconds > wav_format.max_length then false
  else if a.frame_rate ≠ bit_rate then false
  else if (a.sample_width : ℚ) ≠ sampling_rate then false
  else if a.channels ≠ wav_format.channel then false
  else if file_modulation a ≠ wav_format.modulation then false
  else true

/-- The diagnostic a failing check of validate_wav prints, carried as data:
each constructor records the actual value followed by the expected value,
exactly as the corresponding print statement interpolates them
(src lines 170-185).  The frame-rate check prints the words wrong bit rate
and the sample-width check prints the words wrong sampling rate. -/
inductive VResult where
  | ok
  | tooLong (actual expected : ℚ)
  | wrongFrameRate (actual expected : ℕ)
  | wrongSampleWidth (actual : ℕ) (expected : ℚ)
  | wrongChannels (actual expected : ℕ)
  | wrongModulation (actual expected : String)
deriving DecidableEq, Repr

/-- validate_wav with its printed diagnostics reified: same checks, same
order, same derived expectations as validate_wav (src lines 142-188), but
returning which check failed first together with the printed actual and
expected values. -/
def validate_wav_result (a : AudioAsset) (wav_format : WavFormat) : VResult :=
  let bit_rate := wav_format.bit_rate * 1000
  let sampling_rate : ℚ := (wav_format.sampling_rate : ℚ) / 8
  if a.duration_seconds > wav_format.max_length then
    VResult.tooLong a.duration_seconds wav_format.max_length
  else if a.frame_rate ≠ bit_rate then
    VResult.wrongFrameRate a.frame_rate bit_rate
  else if (a.sample_width : ℚ) ≠ sampling_rate then
    VResult.wrongSampleWidth a.sample_width sampling_rate
  else if a.channels ≠ wav_format.channel then
    VResult.wrongChannels a.channels wav_format.channel
  else if file_modulation a ≠ wav_format.modulation then
    VResult.wrongModulation (file_modulation a) wav_format.modulation
  else VResult.ok

/-- validate_wav and validate_wav_result agree: the boolean is true exactly
when no check fires. -/
theorem validate_wav_eq_ok (a : AudioAsset) (f : WavFormat) :
    validate_wav a f = true ↔ validate_wav_result a f = VResult.ok := by
  unfold validate_wav validate_wav_result
  split_ifs with h1 h2 h3 <;> simp_all <;> split_ifs <;> simp_all

/-- Branch lemma: the duration check fires first. -/
theorem validate_wav_result_tooLong (a : AudioAsset) (f : WavFormat)
    (h : a.duration_seconds > f.max_length) :
    validate_wav_result a f = VResult.tooLong a.duration_seconds f.max_length := by
  simp only [validate_wav_result]
  rw [if_pos h]

/-- Branch lemma: with the duration in range, a frame-rate mismatch fires
second. -/
theorem validate_wav_result_frame (a : AudioAsset) (f : WavFormat)
    (hd : a.duration_seconds ≤ f.max_length)
    (h : a.frame_rate ≠ f.bit_rate * 1000) :
    validate_wav_result a f = VResult.wrongFrameRate a.frame_rate (f.bit_rate * 1000) := by
  simp only [validate_wav_result]
  rw [if_neg (not_lt.mpr hd), if_pos h]

/-- Branch lemma: with duration and frame rate passing, a sample-width
mismatch fires third. -/
theorem validate_wav_result_width (a : AudioAsset) (f : WavFormat)
    (hd : a.duration_seconds ≤ f.max_length)
    (h2 : a.frame_rate = f.bit_rate * 1000)
    (h : (a.sample_width : ℚ) ≠ (f.sampling_rate : ℚ) / 8) :
    validate_wav_result a f = VResult.wrongSampleWidth a.sample_width ((f.sampling_rate : ℚ) / 8) := by
  simp only [validate_wav_result]
  rw [if_neg (not_lt.mpr hd), if_neg (fun hn => hn h2), if_pos h]

/-- Branch lemma: with the first three checks passing, a channel-count
mismatch fires fourth. -/
theorem validate_wav_result_channels (a : AudioAsset) (f : WavFormat)
    (hd : a.duration_seconds ≤ f.max_length)
    (h2 : a.frame_rate = f.bit_rate * 1000)
    (h3 : (a.sample_width : ℚ) = (f.sampling_rate : ℚ) / 8)
    (h : a.channels ≠ f.channel) :
    validate_wav_result a f = VResult.wrongChannels a.channels f.channel := by
  simp only [validate_wav_result]
  rw [if_neg (not_lt.mpr hd), if_neg (fun hn => hn h2), if_neg (fun hn => hn h3), if_pos h]

/-- Branch lemma: with the first four checks passing, a modulation mismatch
fires fifth. -/
theorem validate_wav_result_mod (a : AudioAsset) (f : WavFormat)
    (hd : a.duration_seconds ≤ f.max_length)
    (h2 : a.frame_rate = f.bit_rate * 1000)
    (h3 : (a.sample_width : ℚ) = (f.sampling_rate : ℚ) / 8)
    (h4 : a.channels = f.channel)
    (h : file_modulation a ≠ f.modulation) :
    validate_wav_result a f = VResult.wrongModulation (file_modulation a) f.modulation := by
  simp only [validate_wav_result]
  rw [if_neg (not_lt.mpr hd), if_neg (fun hn => hn h2), if_neg (fun hn => hn h3),
    if_neg (fun hn => hn h4), if_pos h]

/-- Branch lemma: with every check passing the result is ok. -/
theorem validate_wav_result_all_ok (a : AudioAsset) (f : WavFormat)
    (hd : a.duration_seconds ≤ f.max_length)
    (h2 : a.frame_rate = f.bit_rate * 1000)
    (h3 : (a.sample_width : ℚ) = (f.sampling_rate : ℚ) / 8)
    (h4 : a.channels = f.channel)
    (h5 : file_modulation a = f.modulation) :
    validate_wav_result a f = VResult.ok := by
  simp only [validate_wav_result]
  rw [if_neg (not_lt.mpr hd), if_neg (fun hn => hn h2), if_neg (fun hn => hn h3),
    if_neg (fun hn => hn h4), if_neg (fun hn => hn h5)]

/-- The unit-corrected validator described in the spec's open question:
identical to validate_wav except that the frame-rate expectation is derived
from the profile's sample-rate field (kHz figure times 1000) and the
sample-width expectation from the profile's bit-depth field (bit figure
divided by 8). -/
def validate_wav_unit_corrected (a : AudioAsset) (wav_format : WavFormat) : Bool :=
  let frame_rate_expected := wav_format.sampling_rate * 1000
  let sample_width_expected : ℚ := (wav_format.bit_rate : ℚ) / 8
  if a.duration_seconds > wav_format.max_length then false
  else if a.frame_rate ≠ frame_rate_expected then false
  else if (a.sample_width : ℚ) ≠ sample_width_expected then false
  else if a.channels ≠ wav_format.channel then false
  else if file_modulation a ≠ wav_format.modulation then false
  else true

/-- A profile whose sample-rate field (8 kHz) differs from its bit-depth
field (16 bit), separating the two derivations of the frame-rate
expectation. -/
def profile_8k : WavFormat :=
  { filename := FILE_NAME
    format := "wav"
    max_length := 10
    sampling_rate := 8
    bit_rate := 16
    channel := 1
    modulation := "PCM" }

/-- An asset whose frame rate is exactly the sample-rate-derived expectation
of profile_8k (8 times 1000 Hz) and which conforms to profile_8k in every
other respect. -/
def asset_8k : AudioAsset :=
  { duration_seconds := 5
    frame_rate := 8000
    sample_width := 2
    channels := 1
    comp_type := "NONE" }

/-- Claim C2 counterexample: on profile_8k the second check of validate_wav
fires with expected value 16000, which is the bit-depth-field-derived value
and not the sample-rate-field-derived value 8000, even though the file's
frame rate equals the sample-rate-derived expectation; the claim that the
second check compares against a sample-rate-derived expectation is false. -/
theorem C2_counterexample :
    validate_wav_result asset_8k profile_8k = VResult.wrongFrameRate 8000 16000 ∧
    (16000 == profile_8k.sampling_rate * 1000) = false ∧
    (asset_8k.frame_rate == profile_8k.sampling_rate * 1000) = true ∧
    validate_wav asset_8k profile_8k = false := by
  refine ⟨?_, by decide, by decide, ?_⟩ <;> decide

/-- Claim C2 as amended: whenever the second check of validate_wav fires,
the reported actual value is the file's frame rate and the reported
expected value is the profile's bit-depth field times 1000 (printed as
wrong bit rate); whenever the third check fires, the reported actual value
is the file's sample width and the reported expected value is the profile's
sample-rate field divided by 8 (printed as wrong sampling rate). -/
theorem C2_amended_expectations :
    ∀ (a : AudioAsset) (f : WavFormat),
      (∀ (act exp : ℕ), validate_wav_result a f = VResult.wrongFrameRate act exp →
        act = a.frame_rate ∧ exp = f.bit_rate * 1000) ∧
      (∀ (act : ℕ) (exp : ℚ), validate_wav_result a f = VResult.wrongSampleWidth act exp →
        act = a.sample_width ∧ exp = (f.sampling_rate : ℚ) / 8) := by
  intro a f
  constructor <;> intro act exp h
  · by_cases hd : a.duration_seconds ≤ f.max_length
    · by_cases h2 : a.frame_rate = f.bit_rate * 1000
      · by_cases h3 : (a.sample_width : ℚ) = (f.sampling_rate : ℚ) / 8
        · by_cases h4 : a.channels = f.channel
          · by_cases h5 : file_modulation a = f.modulation
            · rw [validate_wav_result_all_ok a f hd h2 h3 h4 h5] at h
              simp at h
            · rw [validate_wav_result_mod a f hd h2 h3 h4 h5] at h
              simp at h
          · rw [validate_wav_result_channels a f hd h2 h3 h4] at h
            simp at h
        · rw [validate_wav_result_width a f hd h2 h3] at h
          simp at h
      · rw [validate_wav_result_frame a f hd h2] at h
        injection h with ha he
        exact ⟨ha.symm, he.symm⟩
    · rw [validate_wav_result_tooLong a f (not_le.mp hd)] at h
      simp at h
  · by_cases hd : a.duration_seconds ≤ f.max_length
    · by_cases h2 : a.frame_rate = f.bit_rate * 1000
      · by_cases h3 : (a.sample_width : ℚ) = (f.sampling_rate : ℚ) / 8
        · by_cases h4 : a.channels = f.channel
          · by_cases h5 : file_modulation a = f.modulation
            · rw [validate_wav_result_all_ok a f hd h2 h3 h4 h5] at h
              simp at h
            · rw [validate_wav_result_mod a f hd h2 h3 h4 h5] at h
              simp at h
          · rw [validate_wav_result_channels a f hd h2 h3 h4] at h
            simp at h
        · rw [validate_wav_result_width a f hd h2 h3] at h
          injection h with ha he
          exact ⟨ha.symm, he.symm⟩
      · rw [validate_wav_result_frame a f hd h2] at h
        simp at h
    · rw [validate_wav_result_tooLong a f (not_le.mp hd)] at h
      simp at h

/-- Witness for C2_amended_expectations at asset_8k and profile_8k, where
the second check does fire. -/
theorem C2_amended_witness :
    8000 = asset_8k.frame_rate ∧ 16000 = profile_8k.bit_rate * 1000 :=
  (C2_amended_expectations asset_8k profile_8k).1 8000 16000 (by decide)

/-- Claim C3: validate_wav returns true exactly when every profile field
comparison holds simultaneously, the comparisons being those the code
performs: duration at most max_length, frame rate equal to the derived
bit_rate value, sample width equal to the derived sampling_rate value,
channel count equal, and modulation classification equal. -/
theorem C3_validate_conjunction :
    ∀ (a : AudioAsset) (f : WavFormat),
      validate_wav a f = true ↔
        (a.duration_seconds ≤ f.max_length ∧
         a.frame_rate = f.bit_rate * 1000 ∧
         (a.sample_width : ℚ) = (f.sampling_rate : ℚ) / 8 ∧
         a.channels = f.channel ∧
         file_modulation a = f.modulation) := by
  intro a f
  rw [validate_wav_eq_ok]
  constructor
  · intro h
    have hd : a.duration_seconds ≤ f.max_length := by
      by_contra hd
      rw [validate_wav_result_tooLong a f (not_le.mp hd)] at h
      simp at h
    have h2 : a.frame_rate = f.bit_rate * 1000 := by
      by_contra h2
      rw [validate_wav_result_frame a f hd h2] at h
      simp at h
    have h3 : (a.sample_width : ℚ) = (f.sampling_rate : ℚ) / 8 := by
      by_contra h3
      rw [validate_wav_result_width a f hd h2 h3] at h
      simp at h
    have h4 : a.channels = f.channel := by
      by_contra h4
      rw [validate_wav_result_channels a f hd h2 h3 h4] at h
      simp at h
    have h5 : file_modulation a = f.modulation := by
      by_contra h5
      rw [validate_wav_result_mod a f hd h2 h3 h4 h5] at h
      simp at h
    exact ⟨hd, h2, h3, h4, h5⟩
  · rintro ⟨hd, h2, h3, h4, h5⟩
    exact validate_wav_result_all_ok a f hd h2 h3 h4 h5

/-- A 5-second mono 16-bit 16 kHz PCM asset conforming to the default
profile. -/
def conforming_asset : AudioAsset :=
  { duration_seconds := 5
    frame_rate := 16000
    sample_width := 2
    channels := 1
    comp_type := "NONE" }

/-- Witness for C3_validate_conjunction at a concrete conforming asset. -/
theorem C3_validate_conjunction_witness :
    validate_wav conforming_asset WAV_FORMAT = true :=
  (C3_validate_conjunction conforming_asset WAV_FORMAT).mpr
    ⟨by norm_num [conforming_asset, WAV_FORMAT], by decide, by norm_num [conforming_asset, WAV_FORMAT],
     by decide, by decide⟩

/-- The field a VResult names, in the fixed check order of validate_wav. -/
inductive FieldName where
  | duration
  | frameRate
  | sampleWidth
  | channels
  | modulation
deriving DecidableEq, Repr

/-- The field named by a validate_wav_result diagnostic, none when ok. -/
def reportedField : VResult → Option FieldName
  | VResult.ok => none
  | VResult.tooLong _ _ => some FieldName.duration
  | VResult.wrongFrameRate _ _ => some FieldName.frameRate
  | VResult.wrongSampleWidth _ _ => some FieldName.sampleWidth
  | VResult.wrongChannels _ _ => some FieldName.channels
  | VResult.wrongModulation _ _ => some FieldName.modulation

/-- All fields an asset violates, listed in the fixed check order of
validate_wav: duration, frame rate, sample width, channels, modulation. -/
def violatedFields (a : AudioAsset) (f : WavFormat) : List FieldName :=
  (if a.duration_seconds > f.max_length then [FieldName.duration] else []) ++
  (if a.frame_rate ≠ f.bit_rate * 1000 then [FieldName.frameRate] else []) ++
  (if (a.sample_width : ℚ) ≠ (f.sampling_rate : ℚ) / 8 then [FieldName.sampleWidth] else []) ++
  (if a.channels ≠ f.channel then [FieldName.channels] else []) ++
  (if file_modulation a ≠ f.modulation then [FieldName.modulation] else [])

/-- Claim C7: the violation validate_wav reports is always the first
violated field in the fixed check order, independent of which later fields
would also fail; and a stereo but otherwise conforming asset under the
default profile yields the channels violation with actual 2 and
expected 1. -/
theorem C7_first_violation :
    (∀ (a : AudioAsset) (f : WavFormat),
       reportedField (validate_wav_result a f) = (violatedFields a f).head?) ∧
    (∀ a : AudioAsset, a.duration_seconds ≤ 10 → a.frame_rate = 16000 →
       a.sample_width = 2 → a.channels = 2 → a.comp_type = "NONE" →
       validate_wav_result a WAV_FORMAT = VResult.wrongChannels 2 1) := by
  constructor
  · intro a f
    by_cases hd : a.duration_seconds ≤ f.max_length
    · by_cases h2 : a.frame_rate = f.bit_rate * 1000
      · by_cases h3 : (a.sample_width : ℚ) = (f.sampling_rate : ℚ) / 8
        · by_cases h4 : a.channels = f.channel
          · by_cases h5 : file_modulation a = f.modulation
            · rw [validate_wav_result_all_ok a f hd h2 h3 h4 h5]
              simp [violatedFields, reportedField, not_lt.mpr hd, h2, h3, h4, h5]
            · rw [validate_wav_result_mod a f hd h2 h3 h4 h5]
              simp [violatedFields, reportedField, not_lt.mpr hd, h2, h3, h4, h5]
          · rw [validate_wav_result_channels a f hd h2 h3 h4]
            simp [violatedFields, reportedField, not_lt.mpr hd, h2, h3, h4]
        · rw [validate_wav_result_width a f hd h2 h3]
          simp [violatedFields, reportedField, not_lt.mpr hd, h2, h3]
      · rw [validate_wav_result_frame a f hd h2]
        simp [violatedFields, reportedField, not_lt.mpr hd, h2]
    · rw [validate_wav_result_tooLong a f (not_le.mp hd)]
      simp [violatedFields, reportedField, not_le.mp hd]
  · intro a h1 h2 h3 h4 h5
    have hr := validate_wav_result_channels a WAV_FORMAT
      (by simpa [WAV_FORMAT] using h1)
      (by simp [WAV_FORMAT, h2])
      (by rw [h3]; norm_num [WAV_FORMAT])
      (by simp [WAV_FORMAT, h4])
    simpa [WAV_FORMAT, h4] using hr

/-- A stereo version of the conforming asset. -/
def stereo_asset : AudioAsset :=
  { duration_seconds := 5
    frame_rate := 16000
    sample_width := 2
    channels := 2
    comp_type := "NONE" }

/-- Witness for C7_first_violation at the concrete stereo asset. -/
theorem C7_first_violation_witness :
    validate_wav_result stereo_asset WAV_FORMAT = VResult.wrongChannels 2 1 :=
  C7_first_violation.2 stereo_asset (by norm_num [stereo_asset]) rfl rfl rfl rfl

/-- Claim C9: under the default profile the implemented cross-derived
expectations (bit_rate times 1000 for the frame-rate check, sampling_rate
over 8 for the sample-width check) are numerically equal to the
unit-corrected expectations (sampling_rate times 1000, bit_rate over 8),
namely 16000 Hz and 2 bytes, so the implemented validator and the
unit-corrected validator agree on every asset under the default profile. -/
theorem C9_default_units_coincide :
    (WAV_FORMAT.bit_rate * 1000 = 16000 ∧ (WAV_FORMAT.sampling_rate : ℚ) / 8 = 2 ∧
     WAV_FORMAT.sampling_rate * 1000 = 16000 ∧ (WAV_FORMAT.bit_rate : ℚ) / 8 = 2) ∧
    ∀ a : AudioAsset, validate_wav a WAV_FORMAT = validate_wav_unit_corrected a WAV_FORMAT := by
  constructor
  · norm_num [WAV_FORMAT]
  · intro a
    rfl

/-- NARRATOR constant (src line 33). -/
def NARRATOR : String := "com.apple.voice.enhanced.en-US.Allison"

/-- RATE constant (src line 34). -/
def RATE : ℕ := 175

/-- check_gain (src lines 82-104), the argparse type callback for the gain
option.  The command-line string is modelled as none when float() cannot
parse it (the code then raises ArgumentTypeError with the message invalid
gain value, interpolating the offending string) and as some q when it
parses to the value q; a parsed value is returned exactly when it lies in
the closed interval from 0.01 to 1.0, otherwise ArgumentTypeError is
raised. -/
def check_gain (value : Option ℚ) : Except String ℚ :=
  match value with
  | none => Except.error "is an invalid gain value. Use a float."
  | some fvalue =>
      if 0.01 ≤ fvalue ∧ fvalue ≤ 1.0 then Except.ok fvalue
      else Except.error "Gain must be between 0.01 and 1.0"

/-- Claim C8: check_gain accepts exactly the parsed values in the closed
interval from 0.01 to 1.0 and returns the parsed value; the boundary
values 0.01 and 1.0 are accepted, 0.009 and 1.01 are rejected with the
range error, and an unparseable string is rejected with the float error.
check_gain is the argparse type callback (src line 66), so every rejection
happens during argument parsing, before any synthesis or file I/O. -/
theorem C8_gain_interval :
    (∀ q : ℚ, check_gain (some q) = Except.ok q ↔ (0.01 ≤ q ∧ q ≤ 1.0)) ∧
    check_gain (some 0.01) = Except.ok 0.01 ∧
    check_gain (some 1.0) = Except.ok 1.0 ∧
    check_gain (some 0.009) = Except.error "Gain must be between 0.01 and 1.0" ∧
    check_gain (some 1.01) = Except.error "Gain must be between 0.01 and 1.0" ∧
    check_gain none = Except.error "is an invalid gain value. Use a float." := by
  refine ⟨?_, by norm_num [check_gain], by norm_num [check_gain],
    by norm_num [check_gain], by norm_num [check_gain], rfl⟩
  intro q
  unfold check_gain
  by_cases h : (0.01 : ℚ) ≤ q ∧ q ≤ 1.0
  · simp [h]
  · simp [h]

/-- Witness for the universally quantified part of C8_gain_interval at the
interior point one half. -/
theorem C8_gain_interval_witness :
    check_gain (some (1 / 2 : ℚ)) = Except.ok (1 / 2 : ℚ) :=
  (C8_gain_interval.1 (1 / 2 : ℚ)).mpr (by norm_num)

/-- Embedding of convert_to_wav (src lines 228-256) at the audio-property
level, following the pydub backend contract used by the code:
set_frame_rate resamples to the given rate preserving the duration,
set_sample_width requantizes to the given width, set_channels remixes to
the given channel count, and export in wav format with codec pcm_s16le
writes an uncompressed container whose compression tag reads NONE. -/
def convert_to_wav (sound : AudioAsset) (codec : String)
    (channels sample_width frame_rate : ℕ) : AudioAsset :=
  { duration_seconds := sound.duration_seconds
    frame_rate := frame_rate
    sample_width := sample_width
    channels := channels
    comp_type := if codec = "pcm_s16le" then "NONE" else codec }

/-- convert_to_wav at its default arguments (codec pcm_s16le, 1 channel,
2-byte samples, 16000 Hz), which is how generate_wav (src line 223) and
the ConvertOnly branch of main (src line 323) invoke it. -/
def convert_to_wav_defaults (sound : AudioAsset) : AudioAsset :=
  convert_to_wav sound "pcm_s16le" 1 2 16000

/-- An 11-second, otherwise unremarkable decodable input. -/
def eleven_second_input : AudioAsset :=
  { duration_seconds := 11
    frame_rate := 44100
    sample_width := 2
    channels := 2
    comp_type := "NONE" }

/-- Claim C1 counterexample: an 11-second decodable input converts without
error, yet validating the converted output against the default profile
returns false (duration violation), which is not a backend resampling edge
case; and converting a 5-second input while targeting exactly the valid
profile profile_8k (8000 Hz, 16-bit, mono, PCM) yields output that
validation against profile_8k also rejects. -/
theorem C1_counterexample :
    validate_wav (convert_to_wav_defaults eleven_second_input) WAV_FORMAT = false ∧
    validate_wav (convert_to_wav conforming_asset "pcm_s16le" 1 2 8000) profile_8k = false := by
  constructor <;> decide

/-- Claim C1 as amended: for every decodable input whose duration is at
most the default profile's 10-second limit, convert_to_wav at its default
target parameters followed by validate_wav against the default profile
returns true. -/
theorem C1_roundtrip_amended :
    ∀ a : AudioAsset, a.duration_seconds ≤ 10 →
      validate_wav (convert_to_wav_defaults a) WAV_FORMAT = true := by
  intro a h
  rw [validate_wav_eq_ok]
  exact validate_wav_result_all_ok _ _
    (by simpa [convert_to_wav_defaults, convert_to_wav, WAV_FORMAT] using h)
    (by norm_num [convert_to_wav_defaults, convert_to_wav, WAV_FORMAT])
    (by norm_num [convert_to_wav_defaults, convert_to_wav, WAV_FORMAT])
    (by norm_num [convert_to_wav_defaults, convert_to_wav, WAV_FORMAT])
    (by norm_num [convert_to_wav_defaults, convert_to_wav, WAV_FORMAT,
      file_modulation, validate_wav_mod])

/-- Witness for C1_roundtrip_amended at the concrete 5-second asset. -/
theorem C1_roundtrip_witness :
    validate_wav (convert_to_wav_defaults conforming_asset) WAV_FORMAT = true :=
  C1_roundtrip_amended conforming_asset (by norm_num [conforming_asset])

/-- The parsed command-line arguments consumed by main (src lines 37-79). -/
structure Pargs where
  text : Option String
  input : String
  output : String
  gain : ℚ
  rate : ℕ
  narrator : String
deriving DecidableEq, Repr

/-- The ConvertOnly branch of main (src line 323): convert_to_wav is called
with only the input path and the output path, so all conversion parameters
take their defaults; gain, rate and narrator are never passed.  decode
maps an input path to the decoded audio asset stored there. -/
def main_convert_branch (decode : String → AudioAsset) (p : Pargs) : String × AudioAsset :=
  (p.output ++ "/" ++ FILE_NAME, convert_to_wav_defaults (decode p.input))

/-- Claim C10: in the ConvertOnly workflow the converted asset's
properties are independent of gain, rate and narrator: two argument
vectors naming the same input produce identical output assets, and the
output always has 16000 Hz frame rate, 2-byte samples, one channel and the
uncompressed container tag. -/
theorem C10_convert_independent_of_voice_args :
    ∀ (decode : String → AudioAsset) (p q : Pargs), p.input = q.input →
      (main_convert_branch decode p).2 = (main_convert_branch decode q).2 ∧
      (main_convert_branch decode p).2.frame_rate = 16000 ∧
      (main_convert_branch decode p).2.sample_width = 2 ∧
      (main_convert_branch decode p).2.channels = 1 ∧
      (main_convert_branch decode p).2.comp_type = "NONE" := by
  intro decode p q h
  simp [main_convert_branch, convert_to_wav_defaults, convert_to_wav, h]

/-- A concrete argument vector with the default gain, rate and narrator. -/
def pargs_a : Pargs :=
  { text := none
    input := "in.wav"
    output := "."
    gain := 1
    rate := RATE
    narrator := NARRATOR }

/-- The same argument vector with different gain, rate and narrator. -/
def pargs_b : Pargs :=
  { text := none
    input := "in.wav"
    output := "."
    gain := 1 / 100
    rate := 299
    narrator := "com.apple.voice.enhanced.en-US.Samantha" }

/-- Witness for C10_convert_independent_of_voice_args at two concrete
argument vectors differing in gain, rate and narrator. -/
theorem C10_convert_independent_witness :
    (main_convert_branch (fun _ => conforming_asset) pargs_a).2 =
      (main_convert_branch (fun _ => conforming_asset) pargs_b).2 ∧
    (main_convert_branch (fun _ => conforming_asset) pargs_a).2.frame_rate = 16000 ∧
    (main_convert_branch (fun _ => conforming_asset) pargs_a).2.sample_width = 2 ∧
    (main_convert_branch (fun _ => conforming_asset) pargs_a).2.channels = 1 ∧
    (main_convert_branch (fun _ => conforming_asset) pargs_a).2.comp_type = "NONE" :=
  C10_convert_independent_of_voice_args (fun _ => conforming_asset) pargs_a pargs_b rfl

/-- The temp_speech constant of generate_wav (src line 220). -/
def temp_speech : String := "temp_speech.aiff"

/-- Resolve a leading dot-slash, as the operating system does when the
program hands a path such as ./temp_speech.aiff to os.remove: both
spellings denote the same file in the working directory. -/
def normPath (p : String) : String :=
  match p.data with
  | '.' :: '/' :: rest => String.mk rest
  | _ => p

/-- Create or overwrite the file at a path in the file store. -/
def createFile (p : String) (fs : List String) : List String :=
  let q := normPath p
  if q ∈ fs then fs else q :: fs

/-- os.remove as wrapped by remove_file (src lines 191-207): delete the
file, or fail (OSError, re-raised) when no file exists at the path. -/
def removeFile (p : String) (fs : List String) : Option (List String) :=
  let q := normPath p
  if q ∈ fs then some (fs.erase q) else none

/-- The steps of the Generate workflow as generate_wav runs them
(src lines 210-225): synthesis (text_to_speech), conversion
(convert_to_wav), cleanup (remove_file) and validation (validate_wav). -/
inductive GenStep where
  | synthesizing
  | converting
  | cleanup
  | validating
deriving DecidableEq, BEq, Repr

/-- Outcome of a generate_wav run: the steps that started, the final file
store, and whether the run ended by an exception propagating out. -/
structure GenResult where
  events : List GenStep
  fs : List String
  raised : Bool
deriving DecidableEq, Repr

/-- The path at which generate_wav creates the temporary synthesis
artifact: text_to_speech is called with output_file temp_speech
(src line 222), a bare name relative to the working directory. -/
def gen_creation_path : String := temp_speech

/-- The path generate_wav passes to remove_file (src line 224). -/
def gen_cleanup_path (output : String) : String := output ++ "/" ++ temp_speech

/-- The canonical output path written by the conversion (src line 223). -/
def gen_output_path (output : String) : String := output ++ "/" ++ FILE_NAME

/-- Embedding of generate_wav (src lines 210-225) over the file store.
The four calls run in source order with Python exception propagation and
no handler: text_to_speech writes the artifact at gen_creation_path,
convert_to_wav (whose success is the convertOk parameter, as the backend
may fail to decode the artifact) writes gen_output_path, remove_file
deletes gen_cleanup_path or raises OSError when nothing exists there, and
validate_wav reads the output file.  An exception aborts the remaining
steps. -/
def generate_wav_run (output : String) (convertOk : Bool) (fs0 : List String) : GenResult :=
  let fs1 := createFile gen_creation_path fs0
  if convertOk then
    let fs2 := createFile (gen_output_path output) fs1
    match removeFile (gen_cleanup_path output) fs2 with
    | some fs3 =>
        { events := [GenStep.synthesizing, GenStep.converting, GenStep.cleanup,
            GenStep.validating]
          fs := fs3
          raised := false }
    | none =>
        { events := [GenStep.synthesizing, GenStep.converting, GenStep.cleanup]
          fs := fs2
          raised := true }
  else
    { events := [GenStep.synthesizing, GenStep.converting]
      fs := fs1
      raised := true }

/-- The temporary artifact is present after the synthesis step. -/
theorem temp_mem_create (fs : List String) : temp_speech ∈ createFile gen_creation_path fs := by
  unfold createFile gen_creation_path
  have hn : normPath temp_speech = temp_speech := rfl
  rw [hn]
  by_cases h : temp_speech ∈ fs <;> simp [h]

/-- Claim C4 counterexample: on the run where conversion fails (with the
default output directory and an empty initial store), the workflow
terminates by a propagating exception, the cleanup step never ran, and the
temporary synthesis artifact is still in the file store. -/
theorem C4_counterexample :
    (generate_wav_run "." false []).raised = true ∧
    temp_speech ∈ (generate_wav_run "." false []).fs ∧
    (generate_wav_run "." false []).events.contains GenStep.cleanup = false := by
  refine ⟨rfl, ?_, rfl⟩
  decide

/-- Claim C4 as amended: the cleanup step runs exactly on the runs whose
synthesis and conversion succeed — in particular it still runs when the
later validation finds the output non-compliant — while a conversion
failure aborts the workflow before cleanup and leaves the temporary
artifact in the file store. -/
theorem C4_amended_cleanup :
    ∀ (output : String) (fs0 : List String),
      GenStep.cleanup ∈ (generate_wav_run output true fs0).events ∧
      (generate_wav_run output false fs0).events.contains GenStep.cleanup = false ∧
      temp_speech ∈ (generate_wav_run output false fs0).fs := by
  intro output fs0
  refine ⟨?_, rfl, ?_⟩
  · unfold generate_wav_run
    cases h : removeFile (gen_cleanup_path output)
        (createFile (gen_output_path output) (createFile gen_creation_path fs0)) <;>
      simp [h]
  · exact temp_mem_create fs0

/-- Claim C5: the temporary artifact is created at the bare path
temp_speech.aiff in the working directory whatever the output directory
argument is, while cleanup is pointed at output/temp_speech.aiff; for the
output directory out the two paths denote different files, so the cleanup
call raises OSError and the artifact survives the run. -/
theorem C5_paths_diverge :
    gen_creation_path = "temp_speech.aiff" ∧
    gen_cleanup_path "out" = "out/temp_speech.aiff" ∧
    (normPath gen_creation_path == normPath (gen_cleanup_path "out")) = false ∧
    (generate_wav_run "out" true []).raised = true ∧
    temp_speech ∈ (generate_wav_run "out" true []).fs := by
  refine ⟨rfl, rfl, by decide, by decide, by decide⟩

/-- Claim C6 counterexample: the successful Generate run executes cleanup
before validation, so its event sequence is Synthesizing, Converting,
Cleanup, Validating — a different sequence from the claimed Synthesizing,
Converting, Validating, Cleanup. -/
theorem C6_counterexample :
    (generate_wav_run "." true []).raised = false ∧
    (generate_wav_run "." true []).events =
      [GenStep.synthesizing, GenStep.converting, GenStep.cleanup, GenStep.validating] ∧
    ([GenStep.synthesizing, GenStep.converting, GenStep.cleanup, GenStep.validating] ==
      [GenStep.synthesizing, GenStep.converting, GenStep.validating, GenStep.cleanup]) = false := by
  refine ⟨by decide, by decide, by decide⟩

/-- Claim C6 as amended: generate_wav runs its steps in the fixed order
Synthesizing, Converting, Cleanup, Validating: in every run that ends
without a propagated exception, cleanup of the temporary artifact happens
before validation, not after it. -/
theorem C6_amended_order :
    ∀ (output : String) (convertOk : Bool) (fs0 : List String),
      (generate_wav_run output convertOk fs0).raised = false →
      (generate_wav_run output convertOk fs0).events =
        [GenStep.synthesizing, GenStep.converting, GenStep.cleanup, GenStep.validating] := by
  intro output convertOk fs0 h
  cases convertOk
  · simp [generate_wav_run] at h
  · unfold generate_wav_run at h ⊢
    cases hrm : removeFile (gen_cleanup_path output)
        (createFile (gen_output_path output) (createFile gen_creation_path fs0)) <;>
      simp [hrm] at h ⊢

/-- Witness for C6_amended_order at the default output directory with an
empty initial file store. -/
theorem C6_amended_order_witness :
    (generate_wav_run "." true []).events =
      [GenStep.synthesizing, GenStep.converting, GenStep.cleanup, GenStep.validating] :=
  C6_amended_order "." true [] (by decide)

end Rpwavgen
